import Mathlib

/-!
Shallow embedding of `src/quickstart/v12/src/full-text-search.ts`
(Azure-Samples/azure-search-typescript-samples).

The script is a linear async orchestration over a remote search service.
We model the remote service as an oracle (`SearchService ε`): each remote
call returns `Except ε` for an abstract error type `ε` (service errors are
opaque to the script; it never inspects them).  Execution is modelled as a
writer-plus-exceptions computation `Run ε α`: a list of observable events
(console lines and remote operations, in order) together with an
`Except (RunError ε) α` outcome, where `RunError` distinguishes service
errors (promise rejections of SDK calls) from JavaScript runtime errors
(e.g. a TypeError from reading a property of `undefined`).
-/

namespace FullTextSearch

/-- The `Hotel.Address` nested structure (interface `Hotel`, lines 38-43). -/
structure Address where
  StreetAddress : String
  City : String
  StateProvince : String
  PostalCode : String
deriving Repr, DecidableEq

/-- `ParkingIncluded: string | boolean` (line 35). -/
inductive StrOrBool where
  | str : String → StrOrBool
  | bool : Bool → StrOrBool
deriving Repr, DecidableEq

/-- The `Hotel` interface (lines 28-44). -/
structure Hotel where
  HotelId : String
  HotelName : String
  Description : String
  Description_fr : String
  Category : String
  Tags : List String
  ParkingIncluded : StrOrBool
  LastRenovationDate : String
  Rating : Nat
  Address : Address
deriving Repr, DecidableEq

/-- A field of the index schema.  The script consumes fields opaquely and
passes them through to the service, so we model the attribute flags flatly. -/
structure SearchField where
  name : String
  type : String
  key : Bool := false
  searchable : Bool := false
  filterable : Bool := false
  sortable : Bool := false
  facetable : Bool := false
deriving Repr, DecidableEq

/-- A suggester declaration of the index schema (passed through opaquely). -/
structure SearchSuggester where
  name : String
  searchMode : String
  sourceFields : List String
deriving Repr, DecidableEq

/-- The `HotelIndexDefinition` interface (lines 46-50). -/
structure HotelIndexDefinition where
  name : String
  fields : List SearchField
  suggesters : List SearchSuggester
deriving Repr, DecidableEq

/-- The shape of `hotels.json`: the record set lives under key `"value"`
(line 51: `hotelData["value"]`). -/
structure HotelData where
  value : List Hotel
deriving Repr, DecidableEq

/-- Per-record result inside an `IndexDocumentsResult` (the script reads
only `.succeeded` of the first element, line 110). -/
structure IndexingResult where
  key : String
  succeeded : Bool
  statusCode : Nat
deriving Repr, DecidableEq

/-- Result of `mergeOrUploadDocuments`: per-record results list. -/
structure IndexDocumentsResult where
  results : List IndexingResult
deriving Repr, DecidableEq

/-- The per-query options object (section `sendQueries`, lines 127-178).
All members are optional; the script sets only the indicated subset per
query. -/
structure SearchOptions where
  includeTotalCount : Option Bool := none
  select : Option (List String) := none
  filter : Option String := none
  orderBy : Option (List String) := none
  searchFields : Option (List String) := none
  facets : Option (List String) := none
deriving Repr, DecidableEq

/-- One element of a search result stream (`result.document`, line 139). -/
structure SearchResult where
  document : Hotel
deriving Repr, DecidableEq

/-- The object returned by `searchClient.search`: the result stream and the
optional total count (`searchResults.count`, line 141; `undefined` unless
`includeTotalCount` was requested, modelled as `Option Nat`). -/
structure SearchDocumentsResult where
  results : List SearchResult
  count : Option Nat
deriving Repr, DecidableEq

/-- Observable events of a run, in order: console lines and remote/timer
operations.  `logDocument` is `console.log(JSON.stringify(result.document))`,
`logUploadResult` is `console.log(JSON.stringify(indexDocumentsResult))`. -/
inductive Event where
  | log : String → Event
  | logDocument : Hotel → Event
  | logUploadResult : IndexDocumentsResult → Event
  | opDeleteIndex : String → Event
  | opCreateIndex : String → Event
  | opUpload : List Hotel → Event
  | opSleep : Nat → Event
  | opGetDocumentsCount : Event
  | opSearch : String → SearchOptions → Event
  | opGetDocument : String → Event
deriving Repr, DecidableEq

/-- `true` exactly on the remote-call events (not console lines, not the
timer). -/
def Event.isRemoteOp : Event → Bool
  | Event.opDeleteIndex _ => true
  | Event.opCreateIndex _ => true
  | Event.opUpload _ => true
  | Event.opGetDocumentsCount => true
  | Event.opSearch _ _ => true
  | Event.opGetDocument _ => true
  | _ => false

/-- `true` on the workflow steps: remote calls plus the timer delay. -/
def Event.isStep : Event → Bool
  | Event.opSleep _ => true
  | e => e.isRemoteOp

/-- Errors that can abort the run: rejections of SDK calls carry an opaque
service error; JavaScript runtime errors (such as a TypeError) carry a
message. -/
inductive RunError (ε : Type) where
  | service : ε → RunError ε
  | runtime : String → RunError ε
deriving Repr, DecidableEq

/-- The remote service oracle: one entry per SDK call the script issues.
Each call either resolves with a value or rejects with an opaque error. -/
structure SearchService (ε : Type) where
  deleteIndex : String → Except ε Unit
  createIndex : HotelIndexDefinition → Except ε HotelIndexDefinition
  mergeOrUploadDocuments : List Hotel → Except ε IndexDocumentsResult
  getDocumentsCount : Except ε Nat
  search : String → SearchOptions → Except ε SearchDocumentsResult
  getDocument : String → Except ε Hotel

/-- A computation of the script: the events it emits (in order) and its
outcome. -/
abbrev Run (ε : Type) (α : Type) := List Event × Except (RunError ε) α

/-- Sequencing: on an error the continuation never runs (the async function
aborts and the rejection propagates). -/
def Run.bind {ε α β : Type} (x : Run ε α) (f : α → Run ε β) : Run ε β :=
  match x.2 with
  | Except.error e => (x.1, Except.error e)
  | Except.ok a => (x.1 ++ (f a).1, (f a).2)

/-- `console.log(s)`. -/
def logE {ε : Type} (s : String) : Run ε Unit := ([Event.log s], Except.ok ())

/-- An awaited remote call: the operation event is emitted (the call is
issued), then the oracle decides resolution or rejection. -/
def call {ε α : Type} (ev : Event) (r : Except ε α) : Run ε α :=
  ([ev], r.mapError RunError.service)

/-- `sleep(ms)` (lines 193-195): a timer suspension that always resolves. -/
def sleep {ε : Type} (ms : Nat) : Run ε Unit :=
  ([Event.opSleep ms], Except.ok ())

/-- `deleteIndexIfExists` (lines 114-121): awaits `deleteIndex`; on success
logs "Deleting index...", and the bare `catch` swallows any rejection and
logs "Index does not exist yet.".  Either way it resolves with no error. -/
def deleteIndexIfExists {ε : Type} (svc : SearchService ε) (indexName : String) :
    Run ε Unit :=
  match svc.deleteIndex indexName with
  | Except.ok _ =>
      ([Event.opDeleteIndex indexName, Event.log "Deleting index..."], Except.ok ())
  | Except.error _ =>
      ([Event.opDeleteIndex indexName, Event.log "Index does not exist yet."],
        Except.ok ())

/-- JavaScript runtime error raised by `indexDocumentsResult.results[0].succeeded`
when `results` is empty: `results[0]` is `undefined` and reading `.succeeded`
of it throws a TypeError. -/
def emptyResultsTypeError : String :=
  "TypeError: Cannot read properties of undefined (reading succeeded)"

/-- `loadData` (lines 99-112): logs, awaits `mergeOrUploadDocuments`, prints
the result, then reads `results[0].succeeded` without a guard — an empty
results list raises a TypeError that propagates. -/
def loadData {ε : Type} (svc : SearchService ε) (hotels : List Hotel) :
    Run ε Unit :=
  Run.bind (logE "Uploading documents...") fun _ =>
  Run.bind (call (Event.opUpload hotels) (svc.mergeOrUploadDocuments hotels))
    fun indexDocumentsResult =>
  Run.bind ([Event.logUploadResult indexDocumentsResult], Except.ok ()) fun _ =>
  match indexDocumentsResult.results with
  | [] => ([], Except.error (RunError.runtime emptyResultsTypeError))
  | r0 :: _ =>
      logE ("Index operations succeeded: " ++ toString r0.succeeded)

/-- The `odata` tagged template with one string interpolation: the literal
text followed by the interpolated value quoted with single quotes
(`odata` quotes string substitutions), e.g.
`Address/StateProvince eq \x27FL\x27` (line 149). -/
def odataTag (lit : String) (v : String) : String :=
  lit ++ "\x27" ++ v ++ "\x27"

/-- `selectFields` (lines 127-131): shared projection list used by all four
search queries. -/
def selectFields : List String := ["HotelId", "HotelName", "Rating"]

/-- `searchOptions1` (lines 132-135). -/
def searchOptions1 : SearchOptions :=
  { includeTotalCount := some true, select := some selectFields }

/-- `searchOptions2` (lines 148-152), with `state = \x27FL\x27` (line 147). -/
def searchOptions2 : SearchOptions :=
  { filter := some (odataTag "Address/StateProvince eq " "FL"),
    orderBy := some ["Rating desc"],
    select := some selectFields }

/-- `searchOptions3` (lines 161-164). -/
def searchOptions3 : SearchOptions :=
  { select := some selectFields, searchFields := some ["HotelName"] }

/-- `searchOptions4` (lines 174-178). -/
def searchOptions4 : SearchOptions :=
  { facets := some ["Category"],
    select := some selectFields,
    searchFields := some ["HotelName"] }

/-- The `for await` loop over `searchResults.results`: one
`console.log(JSON.stringify(result.document))` per result, in arrival
order. -/
def printResults (rs : List SearchResult) : List Event :=
  rs.map fun r => Event.logDocument r.document

/-- `${searchResults.count}` in a template literal: a missing count is the
string "undefined". -/
def countString : Option Nat → String
  | some n => toString n
  | none => "undefined"

/-- `sendQueries` (lines 123-191): the five queries, strictly sequential,
each awaited to completion; no try/catch, so any rejection aborts the rest. -/
def sendQueries {ε : Type} (svc : SearchService ε) : Run ε Unit :=
  Run.bind (logE "Query #1 - search everything:") fun _ =>
  Run.bind (call (Event.opSearch "*" searchOptions1) (svc.search "*" searchOptions1))
    fun searchResults1 =>
  Run.bind (printResults searchResults1.results, Except.ok ()) fun _ =>
  Run.bind (logE ("Result count: " ++ countString searchResults1.count)) fun _ =>
  Run.bind (logE "") fun _ =>
  Run.bind (logE "Query #2 - search with filter, orderBy, and select:") fun _ =>
  Run.bind (call (Event.opSearch "wifi" searchOptions2) (svc.search "wifi" searchOptions2))
    fun searchResults2 =>
  Run.bind (printResults searchResults2.results, Except.ok ()) fun _ =>
  Run.bind (logE "") fun _ =>
  Run.bind (logE "Query #3 - limit searchFields:") fun _ =>
  Run.bind (call (Event.opSearch "sublime cliff" searchOptions3)
      (svc.search "sublime cliff" searchOptions3))
    fun searchResults3 =>
  Run.bind (printResults searchResults3.results, Except.ok ()) fun _ =>
  Run.bind (logE "") fun _ =>
  Run.bind (logE "Query #4 - limit searchFields and use facets:") fun _ =>
  Run.bind (call (Event.opSearch "*" searchOptions4) (svc.search "*" searchOptions4))
    fun searchResults4 =>
  Run.bind (printResults searchResults4.results, Except.ok ()) fun _ =>
  Run.bind (logE "") fun _ =>
  Run.bind (logE "Query #5 - Lookup document:") fun _ =>
  Run.bind (call (Event.opGetDocument "3") (svc.getDocument "3"))
    fun documentResult =>
  Run.bind (logE ("HotelId: " ++ documentResult.HotelId ++ "; HotelName: " ++
      documentResult.HotelName)) fun _ =>
  logE ""

/-- `main` (lines 58-97), parametrised by the module-level constants it
reads: the environment values (already defaulted to "" by `|| ""`), the
record set and the index definition. -/
def main {ε : Type} (svc : SearchService ε) (endpoint apiKey : String)
    (hotels : List Hotel) (hotelIndexDefinition : HotelIndexDefinition) :
    Run ε Unit :=
  Run.bind (logE "Running Azure AI Search Javascript quickstart...") fun _ =>
  if endpoint = "" ∨ apiKey = "" then
    logE "Make sure to set valid values for endpoint and apiKey with proper authorization."
  else
    Run.bind (logE "Checking if index exists...") fun _ =>
    Run.bind (deleteIndexIfExists svc hotelIndexDefinition.name) fun _ =>
    Run.bind (logE "Creating index...") fun _ =>
    Run.bind (call (Event.opCreateIndex hotelIndexDefinition.name)
        (svc.createIndex hotelIndexDefinition)) fun index =>
    Run.bind (logE ("Index named " ++ index.name ++ " has been created.")) fun _ =>
    Run.bind (loadData svc hotels) fun _ =>
    Run.bind (sleep 1000) fun _ =>
    Run.bind (call Event.opGetDocumentsCount svc.getDocumentsCount)
      fun documentCount =>
    Run.bind (logE (toString documentCount ++ " docs uploaded")) fun _ =>
    Run.bind (logE "Querying the index...") fun _ =>
    Run.bind (logE "") fun _ =>
    sendQueries svc

/-- The message of the startup guard (lines 24-26). -/
def startupGuardMessage : String :=
  "Make sure to set valid values for hotelData and indexDefinition."

/-- Observable outcome of one whole process run: the events emitted, the
`console.error` line of the top-level catch handler (if it ran), the
uncaught module-level startup error (if thrown), and the process exit
code. -/
structure ProgramResult (ε : Type) where
  events : List Event
  caughtErrorLog : Option (RunError ε) := none
  uncaughtStartupError : Option String := none
  exitCode : Nat
deriving Repr, DecidableEq

/-- The whole process (module evaluation, lines 22-26 and 51-56, then
`main().catch(...)`, lines 196-198).  `hotelData` / `indexDefinition` are
the imported JSON module values (`none` models a value the guard treats as
missing); the environment variables are `Option String` (`none` = unset),
defaulted by `|| ""`.  A module-level throw is an uncaught exception: Node
prints it and exits non-zero, and `main` never runs.  A rejection of
`main()` is handled by `.catch`, which only logs via `console.error`; the
process then ends normally, exit code 0. -/
def program {ε : Type} (hotelData : Option HotelData)
    (indexDefinition : Option HotelIndexDefinition)
    (envEndpoint envApiKey : Option String) (svc : SearchService ε) :
    ProgramResult ε :=
  match hotelData, indexDefinition with
  | some hd, some idx =>
      let hotels := hd.value
      let endpoint := envEndpoint.getD ""
      let apiKey := envApiKey.getD ""
      match main svc endpoint apiKey hotels idx with
      | (tr, Except.ok _) => { events := tr, exitCode := 0 }
      | (tr, Except.error e) =>
          { events := tr, caughtErrorLog := some e, exitCode := 0 }
  | _, _ =>
      { events := [], uncaughtStartupError := some startupGuardMessage,
        exitCode := 1 }

/-- `true` exactly on the query operations: the search calls and the key
lookup. -/
def Event.isQueryOp : Event → Bool
  | Event.opSearch _ _ => true
  | Event.opGetDocument _ => true
  | _ => false

/-- Query events only (the search calls and the key lookup), used to state
that the options each query is issued with do not depend on earlier
responses. -/
def queryEvents (tr : List Event) : List Event :=
  tr.filter Event.isQueryOp

/-- Concrete record for witnesses (shaped like a `hotels.json` entry). -/
def sampleHotel : Hotel :=
  { HotelId := "3"
    HotelName := "Triple Landscape Hotel"
    Description := "The Hotel stands out for its gastronomic excellence."
    Description_fr := "Cet hotel se distingue par son excellence gastronomique."
    Category := "Resort and Spa"
    Tags := ["air conditioning", "bar", "continental breakfast"]
    ParkingIncluded := StrOrBool.bool true
    LastRenovationDate := "2015-09-20T00:00:00Z"
    Rating := 4
    Address :=
      { StreetAddress := "3393 Peachtree Rd"
        City := "Atlanta"
        StateProvince := "GA"
        PostalCode := "30326" } }

/-- Second concrete record for witnesses. -/
def sampleHotel2 : Hotel :=
  { HotelId := "1"
    HotelName := "Stay-Kay City Hotel"
    Description := "The hotel is ideally located on the main commercial artery."
    Description_fr := "L hotel est idealement situe sur la principale artere commerciale."
    Category := "Boutique"
    Tags := ["pool", "air conditioning", "concierge"]
    ParkingIncluded := StrOrBool.bool false
    LastRenovationDate := "1970-01-18T00:00:00Z"
    Rating := 3
    Address :=
      { StreetAddress := "677 5th Ave"
        City := "New York"
        StateProvince := "NY"
        PostalCode := "10022" } }

/-- Concrete record set for witnesses. -/
def demoHotels : List Hotel := [sampleHotel, sampleHotel2]

/-- Concrete `hotels.json` value for witnesses. -/
def demoHotelData : HotelData := { value := demoHotels }

/-- Concrete index definition for witnesses (shaped like
`hotels_quickstart_index.json`). -/
def demoIndexDef : HotelIndexDefinition :=
  { name := "hotels-quickstart"
    fields :=
      [{ name := "HotelId", type := "Edm.String", key := true, filterable := true },
       { name := "HotelName", type := "Edm.String", searchable := true, sortable := true },
       { name := "Rating", type := "Edm.Double", filterable := true, sortable := true, facetable := true },
       { name := "Category", type := "Edm.String", searchable := true, filterable := true, facetable := true }]
    suggesters :=
      [{ name := "sg", searchMode := "analyzingInfixMatching", sourceFields := ["HotelName"] }] }

/-- Oracle on which every remote call succeeds. -/
def okService : SearchService String :=
  { deleteIndex := fun _ => Except.ok ()
    createIndex := fun d => Except.ok d
    mergeOrUploadDocuments := fun hs =>
      Except.ok { results := hs.map fun h => { key := h.HotelId, succeeded := true, statusCode := 200 } }
    getDocumentsCount := Except.ok 4
    search := fun _ _ => Except.ok { results := [], count := some 4 }
    getDocument := fun _ => Except.ok sampleHotel }

/-- Oracle on which the index does not exist: `deleteIndex` rejects,
everything else succeeds. -/
def noIndexService : SearchService String :=
  { okService with deleteIndex := fun _ => Except.error "ResourceNotFound" }

/-- Oracle on which `createIndex` rejects. -/
def createFailService : SearchService String :=
  { okService with createIndex := fun _ => Except.error "create failed" }

/-- Oracle on which the upload resolves with an empty per-record results
list (as for an empty record set). -/
def emptyUploadService : SearchService String :=
  { okService with mergeOrUploadDocuments := fun _ => Except.ok { results := [] } }

/-- Oracle on which the key lookup rejects (document not found). -/
def lookupFailService : SearchService String :=
  { okService with getDocument := fun _ => Except.error "404 document not found" }

/-- Oracle giving different responses than `okService` (different count,
non-empty search results), used to show query options do not depend on
responses. -/
def altResponseService : SearchService String :=
  { okService with
    getDocumentsCount := Except.ok 99
    search := fun _ _ => Except.ok { results := [{ document := sampleHotel }], count := none } }

/- ------------------------------------------------------------------ -/
/- Helper lemmas                                                       -/
/- ------------------------------------------------------------------ -/

theorem Run.bind_snd {ε α β : Type} (x : Run ε α) (f : α → Run ε β) (a : α)
    (hx : x.2 = Except.ok a) : (Run.bind x f).2 = (f a).2 := by
  simp [Run.bind, hx]

theorem Run.mem_bind_left {ε α β : Type} {x : Run ε α} {f : α → Run ε β}
    {ev : Event} (h : ev ∈ x.1) : ev ∈ (Run.bind x f).1 := by
  unfold Run.bind
  cases hx : x.2 <;> simp [h]

theorem Run.mem_bind_right {ε α β : Type} {x : Run ε α} {f : α → Run ε β}
    {ev : Event} (a : α) (hx : x.2 = Except.ok a) (h : ev ∈ (f a).1) :
    ev ∈ (Run.bind x f).1 := by
  unfold Run.bind
  rw [hx]
  simp [h]

theorem deleteIndexIfExists_snd {ε : Type} (svc : SearchService ε)
    (indexName : String) :
    (deleteIndexIfExists svc indexName).2 = Except.ok () := by
  cases h : svc.deleteIndex indexName <;> simp [deleteIndexIfExists, h]

@[simp] theorem printResults_filter_isStep (rs : List SearchResult) :
    (printResults rs).filter Event.isStep = [] := by
  induction rs with
  | nil => rfl
  | cons r rs ih => simp [printResults, Event.isStep, Event.isRemoteOp, ih]

@[simp] theorem printResults_filter_isRemoteOp (rs : List SearchResult) :
    (printResults rs).filter Event.isRemoteOp = [] := by
  induction rs with
  | nil => rfl
  | cons r rs ih => simp [printResults, Event.isRemoteOp, ih]

@[simp] theorem printResults_filter_isQueryOp (rs : List SearchResult) :
    (printResults rs).filter Event.isQueryOp = [] := by
  induction rs with
  | nil => rfl
  | cons r rs ih => simp [printResults, Event.isQueryOp, ih]

theorem sendQueries_remoteOps {ε : Type} (svc : SearchService ε)
    (rs1 rs2 rs3 rs4 : SearchDocumentsResult)
    (h1 : svc.search "*" searchOptions1 = Except.ok rs1)
    (h2 : svc.search "wifi" searchOptions2 = Except.ok rs2)
    (h3 : svc.search "sublime cliff" searchOptions3 = Except.ok rs3)
    (h4 : svc.search "*" searchOptions4 = Except.ok rs4) :
    (sendQueries svc).1.filter Event.isRemoteOp =
      [Event.opSearch "*" searchOptions1,
       Event.opSearch "wifi" searchOptions2,
       Event.opSearch "sublime cliff" searchOptions3,
       Event.opSearch "*" searchOptions4,
       Event.opGetDocument "3"] := by
  cases h5 : svc.getDocument "3" <;>
    simp [sendQueries, Run.bind, logE, call, Except.mapError, h1, h2, h3, h4, h5,
      Event.isRemoteOp]

theorem sendQueries_queryEvents {ε : Type} (svc : SearchService ε)
    (rs1 rs2 rs3 rs4 : SearchDocumentsResult)
    (h1 : svc.search "*" searchOptions1 = Except.ok rs1)
    (h2 : svc.search "wifi" searchOptions2 = Except.ok rs2)
    (h3 : svc.search "sublime cliff" searchOptions3 = Except.ok rs3)
    (h4 : svc.search "*" searchOptions4 = Except.ok rs4) :
    queryEvents (sendQueries svc).1 =
      [Event.opSearch "*" searchOptions1,
       Event.opSearch "wifi" searchOptions2,
       Event.opSearch "sublime cliff" searchOptions3,
       Event.opSearch "*" searchOptions4,
       Event.opGetDocument "3"] := by
  cases h5 : svc.getDocument "3" <;>
    simp [queryEvents, sendQueries, Run.bind, logE, call, Except.mapError,
      h1, h2, h3, h4, h5, Event.isQueryOp]

theorem loadData_delete_irrel {ε : Type} (svc : SearchService ε)
    (d : String → Except ε Unit) :
    loadData { svc with deleteIndex := d } = loadData svc := rfl

theorem sendQueries_delete_irrel {ε : Type} (svc : SearchService ε)
    (d : String → Except ε Unit) :
    sendQueries { svc with deleteIndex := d } = sendQueries svc := rfl

/- ------------------------------------------------------------------ -/
/- Claims                                                              -/
/- ------------------------------------------------------------------ -/

/-- C3: if the endpoint value or the API key value from the environment is
missing (empty or unset, hence "" after the `|| ""` default), `main` logs
the two startup lines and resolves without error, and its trace contains no
remote operation at all (no index deletion, creation, upload, or query). -/
theorem missing_config_no_remote_ops {ε : Type} (svc : SearchService ε)
    (endpoint apiKey : String) (hotels : List Hotel)
    (idx : HotelIndexDefinition) (h : endpoint = "" ∨ apiKey = "") :
    main svc endpoint apiKey hotels idx =
      ([Event.log "Running Azure AI Search Javascript quickstart...",
        Event.log "Make sure to set valid values for endpoint and apiKey with proper authorization."],
        Except.ok ())
    ∧ ∀ ev ∈ (main svc endpoint apiKey hotels idx).1, ev.isRemoteOp = false := by
  constructor
  · simp [main, Run.bind, logE, if_pos h]
  · intro ev hev
    simp [main, Run.bind, logE, if_pos h] at hev
    rcases hev with h1 | h1 <;> subst h1 <;> rfl

/-- Witness for C3 at a concrete input: unset endpoint, concrete key. -/
theorem missing_config_no_remote_ops_witness :
    main okService "" "real-api-key" demoHotels demoIndexDef =
      ([Event.log "Running Azure AI Search Javascript quickstart...",
        Event.log "Make sure to set valid values for endpoint and apiKey with proper authorization."],
        Except.ok ()) :=
  (missing_config_no_remote_ops okService "" "real-api-key" demoHotels
    demoIndexDef (Or.inl rfl)).1

/-- C4: when the index does not exist (the delete call rejects), the reset
step raises no observable error to its caller (it resolves with `ok ()`),
the "Index does not exist yet." message is logged, and under a valid
configuration the run continues to index creation (the create call is
issued). -/
theorem reset_missing_index_continues {ε : Type} (svc : SearchService ε)
    (endpoint apiKey : String) (hotels : List Hotel)
    (idx : HotelIndexDefinition) (e : ε)
    (hdel : svc.deleteIndex idx.name = Except.error e)
    (hcfg : ¬(endpoint = "" ∨ apiKey = "")) :
    (deleteIndexIfExists svc idx.name).2 = Except.ok ()
    ∧ Event.log "Index does not exist yet." ∈ (deleteIndexIfExists svc idx.name).1
    ∧ Event.opCreateIndex idx.name ∈ (main svc endpoint apiKey hotels idx).1 := by
  refine ⟨deleteIndexIfExists_snd svc idx.name, ?_, ?_⟩
  · simp [deleteIndexIfExists, hdel]
  · unfold main
    refine Run.mem_bind_right () rfl ?_
    rw [if_neg hcfg]
    refine Run.mem_bind_right () rfl ?_
    refine Run.mem_bind_right () (deleteIndexIfExists_snd svc idx.name) ?_
    refine Run.mem_bind_right () rfl ?_
    exact Run.mem_bind_left (by simp [call])

/-- Witness for C4 at a concrete input: the delete call rejects on
`noIndexService`, yet the create call still appears in the trace. -/
theorem reset_missing_index_continues_witness :
    Event.opCreateIndex demoIndexDef.name ∈
      (main noIndexService "https://example.search.windows.net" "real-api-key"
        demoHotels demoIndexDef).1 :=
  (reset_missing_index_continues noIndexService
    "https://example.search.windows.net" "real-api-key" demoHotels demoIndexDef
    "ResourceNotFound" rfl (by simp)).2.2

/-- C9: the bare `catch` in `deleteIndexIfExists` swallows every rejection
of the delete call, whatever the error type or value (authentication and
network failures included): the step logs the index-does-not-exist message,
resolves with no error, and `main`'s outcome is exactly what it would be
had the delete call succeeded. -/
theorem delete_swallows_every_error {ε : Type} (svc : SearchService ε)
    (endpoint apiKey : String) (hotels : List Hotel)
    (idx : HotelIndexDefinition) (e : ε)
    (hdel : svc.deleteIndex idx.name = Except.error e) :
    deleteIndexIfExists svc idx.name =
      ([Event.opDeleteIndex idx.name, Event.log "Index does not exist yet."],
        Except.ok ())
    ∧ (main svc endpoint apiKey hotels idx).2 =
      (main { svc with deleteIndex := fun _ => Except.ok () }
        endpoint apiKey hotels idx).2 := by
  constructor
  · simp [deleteIndexIfExists, hdel]
  · by_cases hcfg : endpoint = "" ∨ apiKey = ""
    · simp [main, if_pos hcfg]
    · simp [main, if_neg hcfg, Run.bind, logE, deleteIndexIfExists, hdel,
        loadData_delete_irrel, sendQueries_delete_irrel]

/-- Witness for C9 at a concrete input: an authentication-style failure
string is swallowed just like a not-found failure. -/
theorem delete_swallows_every_error_witness :
    deleteIndexIfExists
      { okService with deleteIndex := fun _ => Except.error "401 Unauthorized" }
      demoIndexDef.name =
      ([Event.opDeleteIndex demoIndexDef.name,
        Event.log "Index does not exist yet."], Except.ok ()) :=
  (delete_swallows_every_error
    { okService with deleteIndex := fun _ => Except.error "401 Unauthorized" }
    "https://example.search.windows.net" "real-api-key" demoHotels demoIndexDef
    "401 Unauthorized" rfl).1

/-- C1: under a valid configuration, the only failure recovered locally is
the delete step's (it always resolves with `ok ()`); an error raised by
index creation, document upload, count verification, or any of the five
queries is not caught locally: `main` rejects with exactly that error, and
any rejection of `main` reaches the top-level run handler (it becomes the
`console.error` line of `main().catch`). -/
theorem only_delete_failure_recovered {ε : Type} (svc : SearchService ε)
    (endpoint apiKey : String) (hotels : List Hotel)
    (idx : HotelIndexDefinition) (hcfg : ¬(endpoint = "" ∨ apiKey = "")) :
    ((deleteIndexIfExists svc idx.name).2 = Except.ok ())
    ∧ (∀ e, svc.createIndex idx = Except.error e →
        (main svc endpoint apiKey hotels idx).2 = Except.error (RunError.service e))
    ∧ (∀ ix e, svc.createIndex idx = Except.ok ix →
        svc.mergeOrUploadDocuments hotels = Except.error e →
        (main svc endpoint apiKey hotels idx).2 = Except.error (RunError.service e))
    ∧ (∀ ix ur r0 rest e, svc.createIndex idx = Except.ok ix →
        svc.mergeOrUploadDocuments hotels = Except.ok ur →
        ur.results = r0 :: rest →
        svc.getDocumentsCount = Except.error e →
        (main svc endpoint apiKey hotels idx).2 = Except.error (RunError.service e))
    ∧ (∀ ix ur r0 rest n e, svc.createIndex idx = Except.ok ix →
        svc.mergeOrUploadDocuments hotels = Except.ok ur →
        ur.results = r0 :: rest →
        svc.getDocumentsCount = Except.ok n →
        svc.search "*" searchOptions1 = Except.error e →
        (main svc endpoint apiKey hotels idx).2 = Except.error (RunError.service e))
    ∧ (∀ ix ur r0 rest n rs1 e, svc.createIndex idx = Except.ok ix →
        svc.mergeOrUploadDocuments hotels = Except.ok ur →
        ur.results = r0 :: rest →
        svc.getDocumentsCount = Except.ok n →
        svc.search "*" searchOptions1 = Except.ok rs1 →
        svc.search "wifi" searchOptions2 = Except.error e →
        (main svc endpoint apiKey hotels idx).2 = Except.error (RunError.service e))
    ∧ (∀ ix ur r0 rest n rs1 rs2 e, svc.createIndex idx = Except.ok ix →
        svc.mergeOrUploadDocuments hotels = Except.ok ur →
        ur.results = r0 :: rest →
        svc.getDocumentsCount = Except.ok n →
        svc.search "*" searchOptions1 = Except.ok rs1 →
        svc.search "wifi" searchOptions2 = Except.ok rs2 →
        svc.search "sublime cliff" searchOptions3 = Except.error e →
        (main svc endpoint apiKey hotels idx).2 = Except.error (RunError.service e))
    ∧ (∀ ix ur r0 rest n rs1 rs2 rs3 e, svc.createIndex idx = Except.ok ix →
        svc.mergeOrUploadDocuments hotels = Except.ok ur →
        ur.results = r0 :: rest →
        svc.getDocumentsCount = Except.ok n →
        svc.search "*" searchOptions1 = Except.ok rs1 →
        svc.search "wifi" searchOptions2 = Except.ok rs2 →
        svc.search "sublime cliff" searchOptions3 = Except.ok rs3 →
        svc.search "*" searchOptions4 = Except.error e →
        (main svc endpoint apiKey hotels idx).2 = Except.error (RunError.service e))
    ∧ (∀ ix ur r0 rest n rs1 rs2 rs3 rs4 e, svc.createIndex idx = Except.ok ix →
        svc.mergeOrUploadDocuments hotels = Except.ok ur →
        ur.results = r0 :: rest →
        svc.getDocumentsCount = Except.ok n →
        svc.search "*" searchOptions1 = Except.ok rs1 →
        svc.search "wifi" searchOptions2 = Except.ok rs2 →
        svc.search "sublime cliff" searchOptions3 = Except.ok rs3 →
        svc.search "*" searchOptions4 = Except.ok rs4 →
        svc.getDocument "3" = Except.error e →
        (main svc endpoint apiKey hotels idx).2 = Except.error (RunError.service e))
    ∧ (∀ e, (main svc endpoint apiKey hotels idx).2 = Except.error e →
        (program (some { value := hotels }) (some idx) (some endpoint)
          (some apiKey) svc).caughtErrorLog = some e) := by
  refine ⟨deleteIndexIfExists_snd svc idx.name, ?_, ?_, ?_, ?_, ?_, ?_, ?_, ?_, ?_⟩
  · intro e h1
    cases hdel : svc.deleteIndex idx.name <;>
      simp [main, Run.bind, logE, call, Except.mapError, deleteIndexIfExists, if_neg hcfg, hdel, h1]
  · intro ix e h1 h2
    cases hdel : svc.deleteIndex idx.name <;>
      simp [main, loadData, Run.bind, logE, call, Except.mapError,
        deleteIndexIfExists, if_neg hcfg, hdel, h1, h2]
  · intro ix ur r0 rest e h1 h2 h3 h4
    cases hdel : svc.deleteIndex idx.name <;>
      simp [main, loadData, sleep, Run.bind, logE, call, Except.mapError,
        deleteIndexIfExists, if_neg hcfg, hdel, h1, h2, h3, h4]
  · intro ix ur r0 rest n e h1 h2 h3 h4 h5
    cases hdel : svc.deleteIndex idx.name <;>
      simp [main, loadData, sleep, sendQueries, Run.bind, logE, call,
        Except.mapError, deleteIndexIfExists, if_neg hcfg, hdel, h1, h2, h3, h4, h5]
  · intro ix ur r0 rest n rs1 e h1 h2 h3 h4 h5 h6
    cases hdel : svc.deleteIndex idx.name <;>
      simp [main, loadData, sleep, sendQueries, Run.bind, logE, call,
        Except.mapError, deleteIndexIfExists, if_neg hcfg, hdel, h1, h2, h3, h4, h5, h6]
  · intro ix ur r0 rest n rs1 rs2 e h1 h2 h3 h4 h5 h6 h7
    cases hdel : svc.deleteIndex idx.name <;>
      simp [main, loadData, sleep, sendQueries, Run.bind, logE, call,
        Except.mapError, deleteIndexIfExists, if_neg hcfg, hdel, h1, h2, h3, h4, h5, h6, h7]
  · intro ix ur r0 rest n rs1 rs2 rs3 e h1 h2 h3 h4 h5 h6 h7 h8
    cases hdel : svc.deleteIndex idx.name <;>
      simp [main, loadData, sleep, sendQueries, Run.bind, logE, call,
        Except.mapError, deleteIndexIfExists, if_neg hcfg, hdel, h1, h2, h3, h4, h5, h6, h7, h8]
  · intro ix ur r0 rest n rs1 rs2 rs3 rs4 e h1 h2 h3 h4 h5 h6 h7 h8 h9
    cases hdel : svc.deleteIndex idx.name <;>
      simp [main, loadData, sleep, sendQueries, Run.bind, logE, call,
        Except.mapError, deleteIndexIfExists, if_neg hcfg, hdel, h1, h2, h3, h4, h5, h6, h7, h8, h9]
  · intro e hmain
    cases hM : main svc endpoint apiKey hotels idx with
    | mk tr r =>
      rw [hM] at hmain
      have hr : r = Except.error e := hmain
      subst hr
      simp [program, hM]

/-- Witness for C1 at a concrete input: a rejected `createIndex` propagates
uncaught out of `main`. -/
theorem only_delete_failure_recovered_witness :
    (main createFailService "https://example.search.windows.net" "real-api-key"
      demoHotels demoIndexDef).2 = Except.error (RunError.service "create failed") :=
  (only_delete_failure_recovered createFailService
    "https://example.search.windows.net" "real-api-key" demoHotels demoIndexDef
    (by decide)).2.1 "create failed" rfl

/-- C5: when every query resolves, the query runner issues exactly five
queries, in order, each with exactly the required option combination:
(1) search text "*" with select [HotelId, HotelName, Rating] and
includeTotalCount true; (2) a filter for Address/StateProvince equal to
"FL" (the odata-quoted predicate string), orderBy ["Rating desc"] and the
same select; (3) searchFields [HotelName] with the same select;
(4) searchFields [HotelName] with facets ["Category"] and the same select;
(5) a direct document lookup by key "3" (not a search), whose failure
propagates uncaught out of `sendQueries`. -/
theorem five_queries_exact {ε : Type} (svc : SearchService ε)
    (rs1 rs2 rs3 rs4 : SearchDocumentsResult)
    (h1 : svc.search "*" searchOptions1 = Except.ok rs1)
    (h2 : svc.search "wifi" searchOptions2 = Except.ok rs2)
    (h3 : svc.search "sublime cliff" searchOptions3 = Except.ok rs3)
    (h4 : svc.search "*" searchOptions4 = Except.ok rs4) :
    ((sendQueries svc).1.filter Event.isRemoteOp =
      [Event.opSearch "*"
         { includeTotalCount := some true,
           select := some ["HotelId", "HotelName", "Rating"] },
       Event.opSearch "wifi"
         { filter := some "Address/StateProvince eq \x27FL\x27",
           orderBy := some ["Rating desc"],
           select := some ["HotelId", "HotelName", "Rating"] },
       Event.opSearch "sublime cliff"
         { select := some ["HotelId", "HotelName", "Rating"],
           searchFields := some ["HotelName"] },
       Event.opSearch "*"
         { facets := some ["Category"],
           select := some ["HotelId", "HotelName", "Rating"],
           searchFields := some ["HotelName"] },
       Event.opGetDocument "3"])
    ∧ (∀ e, svc.getDocument "3" = Except.error e →
        (sendQueries svc).2 = Except.error (RunError.service e)) := by
  constructor
  · rw [sendQueries_remoteOps svc rs1 rs2 rs3 rs4 h1 h2 h3 h4]
    rfl
  · intro e h5
    simp [sendQueries, Run.bind, logE, call, Except.mapError, h1, h2, h3, h4, h5]

/-- Witness for C5 at a concrete input: the remote-op projection of a fully
successful `sendQueries` run on `okService`. -/
theorem five_queries_exact_witness :
    (sendQueries okService).1.filter Event.isRemoteOp =
      [Event.opSearch "*"
         { includeTotalCount := some true,
           select := some ["HotelId", "HotelName", "Rating"] },
       Event.opSearch "wifi"
         { filter := some "Address/StateProvince eq \x27FL\x27",
           orderBy := some ["Rating desc"],
           select := some ["HotelId", "HotelName", "Rating"] },
       Event.opSearch "sublime cliff"
         { select := some ["HotelId", "HotelName", "Rating"],
           searchFields := some ["HotelName"] },
       Event.opSearch "*"
         { facets := some ["Category"],
           select := some ["HotelId", "HotelName", "Rating"],
           searchFields := some ["HotelName"] },
       Event.opGetDocument "3"] :=
  (five_queries_exact okService
    { results := [], count := some 4 } { results := [], count := some 4 }
    { results := [], count := some 4 } { results := [], count := some 4 }
    rfl rfl rfl rfl).1

/-- C6: under a valid configuration, when every remote call resolves (and
the upload reports at least one per-record result), the steps of `main`
occur in this strict linear order with no step skipped, repeated or
overlapped: index delete-if-exists, index creation, document upload, the
fixed one-second delay, document-count verification, then the five queries
one after another; and `main` resolves. -/
theorem steps_strict_linear_order {ε : Type} (svc : SearchService ε)
    (endpoint apiKey : String) (hotels : List Hotel)
    (idx ix : HotelIndexDefinition) (ur : IndexDocumentsResult)
    (r0 : IndexingResult) (rest : List IndexingResult) (n : Nat)
    (rs1 rs2 rs3 rs4 : SearchDocumentsResult) (doc : Hotel)
    (hcfg : ¬(endpoint = "" ∨ apiKey = ""))
    (hcr : svc.createIndex idx = Except.ok ix)
    (hup : svc.mergeOrUploadDocuments hotels = Except.ok ur)
    (hres : ur.results = r0 :: rest)
    (hcnt : svc.getDocumentsCount = Except.ok n)
    (h1 : svc.search "*" searchOptions1 = Except.ok rs1)
    (h2 : svc.search "wifi" searchOptions2 = Except.ok rs2)
    (h3 : svc.search "sublime cliff" searchOptions3 = Except.ok rs3)
    (h4 : svc.search "*" searchOptions4 = Except.ok rs4)
    (h5 : svc.getDocument "3" = Except.ok doc) :
    (main svc endpoint apiKey hotels idx).1.filter Event.isStep =
      [Event.opDeleteIndex idx.name,
       Event.opCreateIndex idx.name,
       Event.opUpload hotels,
       Event.opSleep 1000,
       Event.opGetDocumentsCount,
       Event.opSearch "*" searchOptions1,
       Event.opSearch "wifi" searchOptions2,
       Event.opSearch "sublime cliff" searchOptions3,
       Event.opSearch "*" searchOptions4,
       Event.opGetDocument "3"]
    ∧ (main svc endpoint apiKey hotels idx).2 = Except.ok () := by
  cases hdel : svc.deleteIndex idx.name <;>
    exact ⟨by simp [main, loadData, sleep, sendQueries, Run.bind, logE, call,
        Except.mapError, deleteIndexIfExists, if_neg hcfg, hdel, hcr, hup, hres,
        hcnt, h1, h2, h3, h4, h5, Event.isStep, Event.isRemoteOp],
      by simp [main, loadData, sleep, sendQueries, Run.bind, logE, call,
        Except.mapError, deleteIndexIfExists, if_neg hcfg, hdel, hcr, hup, hres,
        hcnt, h1, h2, h3, h4, h5]⟩

/-- Witness for C6 at a concrete input: the step projection of a fully
successful run on `okService`. -/
theorem steps_strict_linear_order_witness :
    (main okService "https://example.search.windows.net" "real-api-key"
      demoHotels demoIndexDef).1.filter Event.isStep =
      [Event.opDeleteIndex demoIndexDef.name,
       Event.opCreateIndex demoIndexDef.name,
       Event.opUpload demoHotels,
       Event.opSleep 1000,
       Event.opGetDocumentsCount,
       Event.opSearch "*" searchOptions1,
       Event.opSearch "wifi" searchOptions2,
       Event.opSearch "sublime cliff" searchOptions3,
       Event.opSearch "*" searchOptions4,
       Event.opGetDocument "3"] :=
  (steps_strict_linear_order okService "https://example.search.windows.net"
    "real-api-key" demoHotels demoIndexDef demoIndexDef
    { results := [{ key := "3", succeeded := true, statusCode := 200 },
                  { key := "1", succeeded := true, statusCode := 200 }] }
    { key := "3", succeeded := true, statusCode := 200 }
    [{ key := "1", succeeded := true, statusCode := 200 }] 4
    { results := [], count := some 4 } { results := [], count := some 4 }
    { results := [], count := some 4 } { results := [], count := some 4 }
    sampleHotel (by decide) rfl rfl rfl rfl rfl rfl rfl rfl rfl).1

/-- C7: the option objects the five queries are issued with are fixed,
fresh values that do not depend on the responses of earlier queries, or on
the service at all: two runs against arbitrary services (even with
different error types and different responses) issue the very same query
events, options included, as long as the four searches resolve. -/
theorem query_options_independent {ε ε' : Type}
    (svc : SearchService ε) (svc' : SearchService ε')
    (rs1 rs2 rs3 rs4 qs1 qs2 qs3 qs4 : SearchDocumentsResult)
    (h1 : svc.search "*" searchOptions1 = Except.ok rs1)
    (h2 : svc.search "wifi" searchOptions2 = Except.ok rs2)
    (h3 : svc.search "sublime cliff" searchOptions3 = Except.ok rs3)
    (h4 : svc.search "*" searchOptions4 = Except.ok rs4)
    (g1 : svc'.search "*" searchOptions1 = Except.ok qs1)
    (g2 : svc'.search "wifi" searchOptions2 = Except.ok qs2)
    (g3 : svc'.search "sublime cliff" searchOptions3 = Except.ok qs3)
    (g4 : svc'.search "*" searchOptions4 = Except.ok qs4) :
    queryEvents (sendQueries svc).1 = queryEvents (sendQueries svc').1 := by
  rw [sendQueries_queryEvents svc rs1 rs2 rs3 rs4 h1 h2 h3 h4,
    sendQueries_queryEvents svc' qs1 qs2 qs3 qs4 g1 g2 g3 g4]

/-- Witness for C7 at concrete inputs: two services with different
responses (different counts and result lists) produce identical query
events. -/
theorem query_options_independent_witness :
    queryEvents (sendQueries okService).1 =
      queryEvents (sendQueries altResponseService).1 :=
  query_options_independent okService altResponseService
    { results := [], count := some 4 } { results := [], count := some 4 }
    { results := [], count := some 4 } { results := [], count := some 4 }
    { results := [{ document := sampleHotel }], count := none }
    { results := [{ document := sampleHotel }], count := none }
    { results := [{ document := sampleHotel }], count := none }
    { results := [{ document := sampleHotel }], count := none }
    rfl rfl rfl rfl rfl rfl rfl rfl

/-- Counterexample to C2 as stated: on a concrete run that ends on the
error path out of `main` (a rejected `createIndex`), the catch handler
does print the error, but the process exit code is 0, not non-zero: the
rejection is handled by `main().catch`, which only logs, so the process
terminates normally. -/
theorem nonzero_exit_counterexample :
    (main createFailService "https://example.search.windows.net" "real-api-key"
      demoHotels demoIndexDef).2 = Except.error (RunError.service "create failed")
    ∧ (program (some demoHotelData) (some demoIndexDef)
        (some "https://example.search.windows.net") (some "real-api-key")
        createFailService).caughtErrorLog = some (RunError.service "create failed")
    ∧ ¬((program (some demoHotelData) (some demoIndexDef)
        (some "https://example.search.windows.net") (some "real-api-key")
        createFailService).exitCode ≠ 0) :=
  ⟨rfl, rfl, fun h => h rfl⟩

/-- C2 amended: on a run that ends on the error path (an error propagates
out of `main`), the catch handler prints the error message and the process
exits with code 0 — the same exit code as a run that completes all steps —
because `main().catch` handles the rejection and only logs it. -/
theorem error_path_prints_and_exits_zero {ε : Type} (hd : HotelData)
    (idx : HotelIndexDefinition) (envEndpoint envApiKey : Option String)
    (svc : SearchService ε) :
    (∀ e, (main svc (envEndpoint.getD "") (envApiKey.getD "") hd.value idx).2 =
        Except.error e →
      (program (some hd) (some idx) envEndpoint envApiKey svc).caughtErrorLog = some e
      ∧ (program (some hd) (some idx) envEndpoint envApiKey svc).exitCode = 0)
    ∧ ((main svc (envEndpoint.getD "") (envApiKey.getD "") hd.value idx).2 =
        Except.ok () →
      (program (some hd) (some idx) envEndpoint envApiKey svc).caughtErrorLog = none
      ∧ (program (some hd) (some idx) envEndpoint envApiKey svc).exitCode = 0) := by
  constructor
  · intro e hmain
    cases hM : main svc (envEndpoint.getD "") (envApiKey.getD "") hd.value idx with
    | mk tr r =>
      rw [hM] at hmain
      have hr : r = Except.error e := hmain
      subst hr
      constructor <;> simp [program, hM]
  · intro hmain
    cases hM : main svc (envEndpoint.getD "") (envApiKey.getD "") hd.value idx with
    | mk tr r =>
      rw [hM] at hmain
      have hr : r = Except.ok () := hmain
      subst hr
      constructor <;> simp [program, hM]

/-- Witness for the amended C2 at a concrete input: the error-path run
exits with code 0. -/
theorem error_path_prints_and_exits_zero_witness :
    (program (some demoHotelData) (some demoIndexDef)
      (some "https://example.search.windows.net") (some "real-api-key")
      createFailService).exitCode = 0 :=
  ((error_path_prints_and_exits_zero demoHotelData demoIndexDef
    (some "https://example.search.windows.net") (some "real-api-key")
    createFailService).1 (RunError.service "create failed") rfl).2

/-- C8: if the bundled record-set value or the bundled index-schema value
yields no value at startup, the module-level guard throws before any other
step runs: the startup error is uncaught (the catch handler never runs),
the process exit code is non-zero, and no event — in particular no remote
operation — is ever emitted. -/
theorem startup_guard_fatal {ε : Type} (hotelData : Option HotelData)
    (indexDefinition : Option HotelIndexDefinition)
    (envEndpoint envApiKey : Option String) (svc : SearchService ε)
    (h : hotelData = none ∨ indexDefinition = none) :
    (program hotelData indexDefinition envEndpoint envApiKey svc).uncaughtStartupError
      = some startupGuardMessage
    ∧ (program hotelData indexDefinition envEndpoint envApiKey svc).exitCode ≠ 0
    ∧ (program hotelData indexDefinition envEndpoint envApiKey svc).events = []
    ∧ (program hotelData indexDefinition envEndpoint envApiKey svc).caughtErrorLog
      = none := by
  rcases h with h | h
  · subst h
    cases indexDefinition <;> simp [program]
  · subst h
    cases hotelData <;> simp [program]

/-- Witness for C8 at a concrete input: a missing record-set value is a
fatal startup error. -/
theorem startup_guard_fatal_witness :
    (program (none : Option HotelData) (some demoIndexDef)
      (some "https://example.search.windows.net") (some "real-api-key")
      okService).exitCode ≠ 0 :=
  (startup_guard_fatal none (some demoIndexDef)
    (some "https://example.search.windows.net") (some "real-api-key")
    okService (Or.inl rfl)).2.1

/-- C10: `loadData` reads the first element of the upload result's
per-record results list without a guard: if the upload resolves with an
empty results list (as it does for an empty record set), `loadData`
rejects with the TypeError instead of completing, and under a valid
configuration this error propagates out of `main` to the top-level
handler's `console.error`. -/
theorem empty_results_typeerror {ε : Type} (svc : SearchService ε)
    (hotels : List Hotel) (ur : IndexDocumentsResult)
    (hup : svc.mergeOrUploadDocuments hotels = Except.ok ur)
    (hempty : ur.results = []) :
    (loadData svc hotels).2 = Except.error (RunError.runtime emptyResultsTypeError)
    ∧ (∀ (endpoint apiKey : String) (idx ix : HotelIndexDefinition),
        ¬(endpoint = "" ∨ apiKey = "") →
        svc.createIndex idx = Except.ok ix →
        (main svc endpoint apiKey hotels idx).2 =
          Except.error (RunError.runtime emptyResultsTypeError)
        ∧ (program (some { value := hotels }) (some idx) (some endpoint)
            (some apiKey) svc).caughtErrorLog =
          some (RunError.runtime emptyResultsTypeError)) := by
  have hload : (loadData svc hotels).2 =
      Except.error (RunError.runtime emptyResultsTypeError) := by
    simp [loadData, Run.bind, logE, call, Except.mapError, hup, hempty]
  refine ⟨hload, ?_⟩
  intro endpoint apiKey idx ix hcfg hcr
  have hmain : (main svc endpoint apiKey hotels idx).2 =
      Except.error (RunError.runtime emptyResultsTypeError) := by
    cases hdel : svc.deleteIndex idx.name <;>
      simp [main, loadData, Run.bind, logE, call, Except.mapError,
        deleteIndexIfExists, if_neg hcfg, hdel, hcr, hup, hempty]
  refine ⟨hmain, ?_⟩
  cases hM : main svc endpoint apiKey hotels idx with
  | mk tr r =>
    rw [hM] at hmain
    have hr : r = Except.error (RunError.runtime emptyResultsTypeError) := hmain
    subst hr
    simp [program, hM]

/-- Witness for C10 at a concrete input: an empty record set yields an
empty results list, and `loadData` rejects with the TypeError. -/
theorem empty_results_typeerror_witness :
    (loadData okService ([] : List Hotel)).2 =
      Except.error (RunError.runtime emptyResultsTypeError) :=
  (empty_results_typeerror okService [] { results := [] } rfl rfl).1

end FullTextSearch
